import Mathlib

/-!
Shallow embedding of metlog-psutils (pslogtools/__init__.py).

The module inspects a target OS process by PID: capability probes
(check_osx_perm, supports_iocounters), the LazyPSUtil inspector whose
constructor deletes unsupported methods from the class, per-category
getters, write_json (the worker body), process_details (the orchestrator,
modelled from the point after Popen/communicate), and metlog_procinfo
(the metlog adapter).

Machine-level conventions: Python floats are modelled as Rat (the code
only copies them, no arithmetic); psutil handles are modelled by the PID
they are bound to; raised exceptions and sys.exit are modelled as
Except.error carrying the exception text; json.dumps output is modelled
structurally by the JVal tree that would be serialized, in dict-literal
insertion order.
-/

namespace Pslog

/-- Platform/privilege context sampled by the capability probes:
sys.platform containing "darwin", os.getuid(), os.name == "posix",
hasattr(psutil.Process, "get_io_counters"). -/
structure Platform where
  sysPlatformDarwin : Bool
  uid : Nat
  osNamePosix : Bool
  psutilHasIoCounters : Bool
deriving Repr, DecidableEq

/-- check_osx_perm(): "darwin" not in sys.platform or os.getuid() == 0. -/
def check_osx_perm (plat : Platform) : Bool :=
  !plat.sysPlatformDarwin || plat.uid == 0

/-- supports_iocounters(): if not hasattr(psutil.Process, "get_io_counters")
or os.name != "posix": return False; return True. -/
def supports_iocounters (plat : Platform) : Bool :=
  if !plat.psutilHasIoCounters || !plat.osNamePosix then false else true

/-- socket.SOCK_STREAM. -/
def SOCK_STREAM : Nat := 1

/-- socket.SOCK_DGRAM. -/
def SOCK_DGRAM : Nat := 2

/-- One psutil connection record of the target process: conn.type,
conn.status, conn.local_address, conn.remote_address (an empty/absent
remote address is none). -/
structure Connection where
  type : Nat
  status : String
  local_address : String × Nat
  remote_address : Option (String × Nat)
deriving Repr, DecidableEq

/-- What psutil would report for the target process: connections,
io counters, memory percent, meminfo (rss and vms), cpu times, cpu
percent over the poll interval, and threads (id, system_time, user_time). -/
structure ProcData where
  connections : List Connection
  io_read_bytes : Int
  io_write_bytes : Int
  io_read_count : Int
  io_write_count : Int
  memory_percent : Rat
  meminfo_rss : Int
  meminfo_vms : Int
  cputimes_user : Rat
  cputimes_system : Rat
  cpu_percent : Rat
  threads : List (Nat × Rat × Rat)
deriving Repr, DecidableEq

/-- The JSON-serializable values the module builds (dict insertion order
is kept in obj). -/
inductive JVal where
  | str (s : String)
  | num (q : Rat)
  | intg (n : Int)
  | arr (elems : List JVal)
  | obj (fields : List (String × JVal))

/-- Instance state of a LazyPSUtil object: self.pid and the lazily
bound self._process (modelled by the PID the psutil handle is bound to). -/
structure LazyPSUtil where
  pid : Nat
  _process : Option Nat
deriving Repr, DecidableEq

/-- The methods present on the LazyPSUtil class before any construction. -/
def initialClassMethods : List String :=
  ["get_connections", "get_io_counters", "get_memory_info", "get_cpu_info",
   "get_thread_cpuinfo", "write_json"]

/-- del cls.name: removes the attribute, raising AttributeError when the
class no longer has it. -/
def delClassAttr (methods : List String) (name : String) :
    Except String (List String) :=
  if name ∈ methods then Except.ok (methods.filter (fun m => m != name))
  else Except.error ("AttributeError: " ++ name)

/-- LazyPSUtil.__init__ effect on the shared class state: if the io gate
fails, delete get_io_counters; if the OSX permission gate fails, delete
get_cpu_info, get_memory_info, get_thread_cpuinfo (in that order).
Returns the class method set after construction. -/
def LazyPSUtil.init (plat : Platform) (methods : List String) :
    Except String (List String) := do
  let m1 ← if supports_iocounters plat then pure methods
           else delClassAttr methods "get_io_counters"
  if check_osx_perm plat then
    pure m1
  else do
    let m2 ← delClassAttr m1 "get_cpu_info"
    let m3 ← delClassAttr m2 "get_memory_info"
    delClassAttr m3 "get_thread_cpuinfo"

/-- The process property: if self._process is None, bind it to
psutil.Process(self.pid) and then raise InvalidPIDError when
os.getpid() == self.pid; finally return self._process. ownPid is
os.getpid() of the inspecting process. -/
def LazyPSUtil.process (ownPid : Nat) (s : LazyPSUtil) :
    Except String Nat × LazyPSUtil :=
  match s._process with
  | some p => (Except.ok p, s)
  | none =>
    let s2 : LazyPSUtil := { s with _process := some s.pid }
    if ownPid == s.pid then
      (Except.error "InvalidPIDError: Cant run process inspection on itself", s2)
    else
      (Except.ok s.pid, s2)

/-- One record built by get_connections for a connection: socket type
classification, status, and local/remote endpoints as "ip:port" with
"*:*" when there is no remote address. Dict-literal order preserved. -/
def connRecord (c : Connection) : JVal :=
  JVal.obj
    [("type", JVal.str
        (if c.type == SOCK_STREAM then "TCP"
         else if c.type == SOCK_DGRAM then "UDP"
         else "UNIX")),
     ("status", JVal.str c.status),
     ("local", JVal.str (c.local_address.1 ++ ":" ++ Nat.repr c.local_address.2)),
     ("remote", JVal.str
        (match c.remote_address with
         | none => "*:*"
         | some rp => rp.1 ++ ":" ++ Nat.repr rp.2))]

/-- get_connections: resolves self.process, then maps every connection to
its record. -/
def LazyPSUtil.get_connections (ownPid : Nat) (s : LazyPSUtil) (d : ProcData) :
    Except String (JVal × LazyPSUtil) :=
  match LazyPSUtil.process ownPid s with
  | (Except.error e, _) => Except.error e
  | (Except.ok _, s2) => Except.ok (JVal.arr (d.connections.map connRecord), s2)

/-- get_io_counters: sys.exit("platform not supported") when
supports_iocounters() is false, else reads the counters. -/
def LazyPSUtil.get_io_counters (plat : Platform) (ownPid : Nat)
    (s : LazyPSUtil) (d : ProcData) : Except String (JVal × LazyPSUtil) :=
  if !supports_iocounters plat then
    Except.error "SystemExit: platform not supported"
  else
    match LazyPSUtil.process ownPid s with
    | (Except.error e, _) => Except.error e
    | (Except.ok _, s2) =>
      Except.ok (JVal.obj
        [("read_bytes", JVal.intg d.io_read_bytes),
         ("write_bytes", JVal.intg d.io_write_bytes),
         ("read_count", JVal.intg d.io_read_count),
         ("write_count", JVal.intg d.io_write_count)], s2)

/-- get_memory_info: raises OSXPermissionFailure without the permission,
else returns {pcnt, rss, vms} where vms is taken from cputimes.system
(the system CPU time), exactly as the source does. -/
def LazyPSUtil.get_memory_info (plat : Platform) (ownPid : Nat)
    (s : LazyPSUtil) (d : ProcData) : Except String (JVal × LazyPSUtil) :=
  if !check_osx_perm plat then
    Except.error "OSXPermissionFailure: OSX requires root for memory info"
  else
    match LazyPSUtil.process ownPid s with
    | (Except.error e, _) => Except.error e
    | (Except.ok _, s2) =>
      Except.ok (JVal.obj
        [("pcnt", JVal.num d.memory_percent),
         ("rss", JVal.intg d.meminfo_rss),
         ("vms", JVal.num d.cputimes_system)], s2)

/-- get_cpu_info: permission gate, then cpu percent over POLL_INTERVAL and
cpu times. -/
def LazyPSUtil.get_cpu_info (plat : Platform) (ownPid : Nat)
    (s : LazyPSUtil) (d : ProcData) : Except String (JVal × LazyPSUtil) :=
  if !check_osx_perm plat then
    Except.error "OSXPermissionFailure: OSX requires root for memory info"
  else
    match LazyPSUtil.process ownPid s with
    | (Except.error e, _) => Except.error e
    | (Except.ok _, s2) =>
      Except.ok (JVal.obj
        [("cpu_pcnt", JVal.num d.cpu_percent),
         ("cpu_user", JVal.num d.cputimes_user),
         ("cpu_sys", JVal.num d.cputimes_system)], s2)

/-- get_thread_cpuinfo: permission gate, then a dict keyed by thread id
(ints become strings under json.dumps) of system/user times. -/
def LazyPSUtil.get_thread_cpuinfo (plat : Platform) (ownPid : Nat)
    (s : LazyPSUtil) (d : ProcData) : Except String (JVal × LazyPSUtil) :=
  if !check_osx_perm plat then
    Except.error "OSXPermissionFailure: OSX requires root for memory info"
  else
    match LazyPSUtil.process ownPid s with
    | (Except.error e, _) => Except.error e
    | (Except.ok _, s2) =>
      Except.ok (JVal.obj
        (d.threads.map (fun t =>
          (Nat.repr t.1, JVal.obj
            [("sys", JVal.num t.2.1), ("user", JVal.num t.2.2)]))), s2)

/-- Attribute lookup self.name on the instance, falling back to the class
method set: AttributeError when the method was deleted. -/
def attrLookup (methods : List String) (name : String) : Except String Unit :=
  if name ∈ methods then Except.ok () else Except.error ("AttributeError: " ++ name)

/-- write_json: builds the data dict in the fixed order net, io, cpu, mem,
threads, invoking self.get_X() for each requested flag (attribute lookup
first, then the method body), and returns the dict that json.dumps would
serialize to stdout. -/
def LazyPSUtil.write_json (plat : Platform) (methods : List String)
    (ownPid : Nat) (s : LazyPSUtil) (d : ProcData)
    (net io cpu mem threads : Bool) :
    Except String (List (String × JVal)) := do
  let (data1, s1) ←
    if net then do
      let _ ← attrLookup methods "get_connections"
      let (v, t) ← LazyPSUtil.get_connections ownPid s d
      pure ([("net", v)], t)
    else pure (([] : List (String × JVal)), s)
  let (data2, s2) ←
    if io then do
      let _ ← attrLookup methods "get_io_counters"
      let (v, t) ← LazyPSUtil.get_io_counters plat ownPid s1 d
      pure (data1 ++ [("io", v)], t)
    else pure (data1, s1)
  let (data3, s3) ←
    if cpu then do
      let _ ← attrLookup methods "get_cpu_info"
      let (v, t) ← LazyPSUtil.get_cpu_info plat ownPid s2 d
      pure (data2 ++ [("cpu", v)], t)
    else pure (data2, s2)
  let (data4, s4) ←
    if mem then do
      let _ ← attrLookup methods "get_memory_info"
      let (v, t) ← LazyPSUtil.get_memory_info plat ownPid s3 d
      pure (data3 ++ [("mem", v)], t)
    else pure (data3, s3)
  let (data5, _) ←
    if threads then do
      let _ ← attrLookup methods "get_thread_cpuinfo"
      let (v, t) ← LazyPSUtil.get_thread_cpuinfo plat ownPid s4 d
      pure (data4 ++ [("threads", v)], t)
    else pure (data4, s4)
  pure data5

/-- The worker body spawned by process_details:
LazyPSUtil(pid).write_json(net, io, cpu, mem, threads) in a fresh process
(fresh class state, fresh capability evaluation); workerPid is
os.getpid() inside the worker. -/
def worker_run (plat : Platform) (workerPid : Nat) (pid : Nat) (d : ProcData)
    (net io cpu mem threads : Bool) :
    Except String (List (String × JVal)) := do
  let methods ← LazyPSUtil.init plat initialClassMethods
  LazyPSUtil.write_json plat methods workerPid
    { pid := pid, _process := none } d net io cpu mem threads

/-- The keys of a collection result: some keys on success, none when the
invocation failed. -/
def collectKeys (r : Except String (List (String × JVal))) :
    Option (List String) :=
  match r with
  | Except.ok data => some (data.map Prod.fst)
  | Except.error _ => none

/-- The category keys a request would put in the result, in write_json
order. -/
def requestedKeys (net io cpu mem threads : Bool) : List String :=
  (if net then ["net"] else []) ++ (if io then ["io"] else []) ++
  (if cpu then ["cpu"] else []) ++ (if mem then ["mem"] else []) ++
  (if threads then ["threads"] else [])

/-- What Popen/communicate hands back to process_details: the worker
process stdout, stderr and exit status. -/
structure WorkerOutcome where
  stdout : String
  stderr : String
  returncode : Int
deriving Repr, DecidableEq

/-- json.loads as used by process_details: empty input raises ValueError
(the worker wrote nothing); otherwise the decoded document (parse details
beyond emptiness are not needed here, so the document is kept verbatim). -/
def json_loads (s : String) : Except String String :=
  if s = "" then Except.error "ValueError: No JSON object could be decoded"
  else Except.ok s

/-- process_details after the worker has been launched and waited for:
the source reads result = proc.communicate(); stdout, stderr = result and
returns json.loads(stdout). Neither proc.returncode nor stderr is ever
consulted. -/
def process_details (w : WorkerOutcome) : Except String String :=
  json_loads w.stdout

/-- dict.pop(key, default): removes the key from the mapping, returning
its value, or returns the default when absent. -/
def dictPop (config : List (String × Bool)) (key : String) (dflt : Bool) :
    Bool × List (String × Bool) :=
  match config.find? (fun kv => kv.1 == key) with
  | some kv => (kv.2, config.filter (fun kv2 => kv2.1 != key))
  | none => (dflt, config)

/-- metlog_procinfo(self, pid, config): pops the five recognized keys from
the callers config mapping (mutating it), raises SyntaxError when
anything is left, else proceeds to process_details with the popped flags.
The returned pair is (outcome, the callers config after the call): ok
carries the arguments process_details is invoked with, error means the
call failed before any worker was spawned. -/
def metlog_procinfo (pid : Option Nat) (ownPid : Nat)
    (config : List (String × Bool)) :
    Except String (Nat × Bool × Bool × Bool × Bool × Bool) ×
      List (String × Bool) :=
  let pid2 := match pid with | none => ownPid | some p => p
  let r1 := dictPop config "net" false
  let r2 := dictPop r1.2 "io" false
  let r3 := dictPop r2.2 "cpu" false
  let r4 := dictPop r3.2 "mem" false
  let r5 := dictPop r4.2 "threads" false
  if r5.2.isEmpty then
    (Except.ok (pid2, r1.1, r2.1, r3.1, r4.1, r5.1), r5.2)
  else
    (Except.error ("SyntaxError: Invalid arguments: " ++
      String.intercalate ", " (r5.2.map Prod.fst)), r5.2)

/-- Linux-like context: permission gate passes, io counters supported. -/
def plat1 : Platform := ⟨false, 1000, true, true⟩

/-- Non-posix context: permission gate passes, io counters unsupported. -/
def plat0 : Platform := ⟨false, 1000, false, true⟩

/-- Darwin non-root context: io counters supported, permission gate fails. -/
def plat2 : Platform := ⟨true, 1000, true, true⟩

/-- The listening socket of the spec scenario: a stream socket at
127.0.0.1:50007 in LISTEN with no remote endpoint. -/
def listenConn : Connection := ⟨SOCK_STREAM, "LISTEN", ("127.0.0.1", 50007), none⟩

/-- A concrete psutil snapshot used by witnesses and counterexamples. -/
def sampleData : ProcData :=
  { connections := [listenConn]
    io_read_bytes := 11
    io_write_bytes := 12
    io_read_count := 3
    io_write_count := 4
    memory_percent := 2
    meminfo_rss := 1024
    meminfo_vms := 4096
    cputimes_user := 5
    cputimes_system := 7
    cpu_percent := 9
    threads := [(1, 2, 3)] }

/-! Theorems -/

/-- C3: for every inspector whose target PID equals the inspecting
process own PID, every access to the process property that performs
handle resolution (self._process still None) raises InvalidPIDError
instead of returning a handle. -/
theorem process_self_inspection_rejected (ownPid : Nat) (s : LazyPSUtil)
    (hcache : s._process = none) (hpid : s.pid = ownPid) :
    (LazyPSUtil.process ownPid s).1 =
      Except.error "InvalidPIDError: Cant run process inspection on itself" := by
  subst hpid
  unfold LazyPSUtil.process
  rw [hcache]
  simp

/-- Witness for C3 at pid 5 inspected from pid 5. -/
theorem process_self_inspection_rejected_witness :
    (LazyPSUtil.process 5 ⟨5, none⟩).1 =
      Except.error "InvalidPIDError: Cant run process inspection on itself" :=
  process_self_inspection_rejected 5 ⟨5, none⟩ rfl rfl

/-- C8: the failing self-inspection access caches the handle before the
PID check runs, so the inspector state is mutated (self._process is
bound) and every subsequent access returns the cached handle without
raising. -/
theorem process_self_inspection_caches_handle (ownPid : Nat) (s : LazyPSUtil)
    (hcache : s._process = none) (hpid : s.pid = ownPid) :
    (LazyPSUtil.process ownPid s).2._process = some s.pid ∧
    LazyPSUtil.process ownPid (LazyPSUtil.process ownPid s).2 =
      (Except.ok s.pid, (LazyPSUtil.process ownPid s).2) := by
  subst hpid
  unfold LazyPSUtil.process
  rw [hcache]
  simp

/-- Witness for C8 at pid 7 inspected from pid 7. -/
theorem process_self_inspection_caches_handle_witness :
    (LazyPSUtil.process 7 ⟨7, none⟩).2._process = some (7 : Nat) ∧
    LazyPSUtil.process 7 (LazyPSUtil.process 7 ⟨7, none⟩).2 =
      (Except.ok 7, (LazyPSUtil.process 7 ⟨7, none⟩).2) :=
  process_self_inspection_caches_handle 7 ⟨7, none⟩ rfl rfl

/-- C9: under any failed capability gate, constructing a LazyPSUtil
mutates the shared class state: the first construction succeeds and
deletes the gated methods from the class, so a second construction in the
same process raises AttributeError. -/
theorem init_second_construction_attribute_error (plat : Platform)
    (hgate : supports_iocounters plat = false ∨ check_osx_perm plat = false) :
    ∃ m, LazyPSUtil.init plat initialClassMethods = Except.ok m ∧
      ∃ e t, LazyPSUtil.init plat m = Except.error e ∧
        e = "AttributeError" ++ t := by
  cases hs : supports_iocounters plat <;> cases hp : check_osx_perm plat <;>
    simp_all [LazyPSUtil.init, initialClassMethods, delClassAttr,
      Bind.bind, Except.bind, Pure.pure, Except.pure] <;>
    first
    | exact ⟨": get_io_counters", rfl⟩
    | exact ⟨": get_cpu_info", rfl⟩

/-- Witness for C9 on the non-posix platform (io gate fails). -/
theorem init_second_construction_attribute_error_witness :
    ∃ m, LazyPSUtil.init plat0 initialClassMethods = Except.ok m ∧
      ∃ e t, LazyPSUtil.init plat0 m = Except.error e ∧
        e = "AttributeError" ++ t :=
  init_second_construction_attribute_error plat0 (Or.inl rfl)

/-- C5 counterexample: a worker that exited 1 with captured stderr yields
the very same result as a worker that exited 0 with empty stderr, namely
a bare decode error that carries neither the exit code nor the stderr
text; process_details does not propagate a collection error with those
diagnostics. -/
theorem process_details_no_diagnostics_cex :
    process_details ⟨"", "Traceback: worker failed", 1⟩ =
      process_details ⟨"", "", 0⟩ ∧
    process_details ⟨"", "Traceback: worker failed", 1⟩ =
      Except.error "ValueError: No JSON object could be decoded" :=
  ⟨rfl, rfl⟩

/-- C5 amended: the result of process_details depends only on the worker
stdout (exit status and stderr are never consulted), and a worker that
exited without writing output surfaces only as a bare JSON decode
error. -/
theorem process_details_ignores_exit_and_stderr :
    (∀ w1 w2 : WorkerOutcome, w1.stdout = w2.stdout →
       process_details w1 = process_details w2) ∧
    (∀ w : WorkerOutcome, w.stdout = "" →
       process_details w =
         Except.error "ValueError: No JSON object could be decoded") := by
  constructor
  · intro w1 w2 h
    unfold process_details
    rw [h]
  · intro w h
    unfold process_details json_loads
    rw [h]
    simp

/-- Witness for C5 amended. -/
theorem process_details_ignores_exit_and_stderr_witness :
    process_details ⟨"{}", "a", 0⟩ = process_details ⟨"{}", "b", 1⟩ ∧
    process_details ⟨"", "boom", 2⟩ =
      Except.error "ValueError: No JSON object could be decoded" :=
  ⟨process_details_ignores_exit_and_stderr.1 ⟨"{}", "a", 0⟩ ⟨"{}", "b", 1⟩ rfl,
   process_details_ignores_exit_and_stderr.2 ⟨"", "boom", 2⟩ rfl⟩

/-- C7: every successful get_memory_info returns exactly the keys pcnt,
rss, vms, with the vms value taken from cputimes.system (the system CPU
time); the actual virtual memory size reported by psutil (meminfo.vms)
never influences the result. -/
theorem get_memory_info_vms_is_system_cputime :
    (∀ (plat : Platform) (ownPid : Nat) (s : LazyPSUtil) (d : ProcData)
       (v : JVal) (s2 : LazyPSUtil),
       LazyPSUtil.get_memory_info plat ownPid s d = Except.ok (v, s2) →
       v = JVal.obj
         [("pcnt", JVal.num d.memory_percent),
          ("rss", JVal.intg d.meminfo_rss),
          ("vms", JVal.num d.cputimes_system)]) ∧
    (∀ (plat : Platform) (ownPid : Nat) (s : LazyPSUtil) (d : ProcData)
       (w : Int),
       LazyPSUtil.get_memory_info plat ownPid s { d with meminfo_vms := w } =
         LazyPSUtil.get_memory_info plat ownPid s d) := by
  constructor
  · intro plat ownPid s d v s2 h
    unfold LazyPSUtil.get_memory_info at h
    split at h
    · exact absurd h (by simp)
    · split at h
      · exact absurd h (by simp)
      · simp_all
  · intro plat ownPid s d w
    rfl

/-- Witness for C7 on plat1 with sampleData. -/
theorem get_memory_info_vms_is_system_cputime_witness :
    LazyPSUtil.get_memory_info plat1 1 ⟨2, none⟩ sampleData =
      Except.ok (JVal.obj
        [("pcnt", JVal.num 2), ("rss", JVal.intg 1024), ("vms", JVal.num 7)],
        ⟨2, some 2⟩) ∧
    JVal.obj [("pcnt", JVal.num 2), ("rss", JVal.intg 1024), ("vms", JVal.num 7)] =
      JVal.obj
        [("pcnt", JVal.num sampleData.memory_percent),
         ("rss", JVal.intg sampleData.meminfo_rss),
         ("vms", JVal.num sampleData.cputimes_system)] :=
  ⟨rfl, get_memory_info_vms_is_system_cputime.1 plat1 1 ⟨2, none⟩ sampleData
    _ ⟨2, some 2⟩ rfl⟩

/-- dict.pop leaves exactly the entries whose key differs. -/
lemma dictPop_snd (cfg : List (String × Bool)) (key : String) (dflt : Bool) :
    (dictPop cfg key dflt).2 = cfg.filter (fun kv => kv.1 != key) := by
  unfold dictPop
  cases h : cfg.find? (fun kv => kv.1 == key) with
  | some kv => rfl
  | none =>
    have h2 := List.find?_eq_none.mp h
    refine (List.filter_eq_self.mpr ?_).symm
    intro a ha
    have h3 := h2 a ha
    simp only [Bool.not_eq_true] at h3
    simp [bne, h3]

/-- After metlog_procinfo, the caller config holds exactly its entries
whose key is none of the five recognized category names. -/
lemma metlog_procinfo_snd (pid : Option Nat) (ownPid : Nat)
    (config : List (String × Bool)) :
    (metlog_procinfo pid ownPid config).2 =
      config.filter (fun kv =>
        kv.1 != "net" && kv.1 != "io" && kv.1 != "cpu" && kv.1 != "mem" &&
          kv.1 != "threads") := by
  have hsplit : (metlog_procinfo pid ownPid config).2 =
      (dictPop (dictPop (dictPop (dictPop (dictPop config "net" false).2
        "io" false).2 "cpu" false).2 "mem" false).2 "threads" false).2 := by
    simp only [metlog_procinfo]
    split <;> rfl
  rw [hsplit, dictPop_snd, dictPop_snd, dictPop_snd, dictPop_snd, dictPop_snd,
    List.filter_filter, List.filter_filter, List.filter_filter,
    List.filter_filter]
  refine List.filter_congr fun a ha => ?_
  generalize (a.1 != "net") = b1
  generalize (a.1 != "io") = b2
  generalize (a.1 != "cpu") = b3
  generalize (a.1 != "mem") = b4
  generalize (a.1 != "threads") = b5
  revert b1 b2 b3 b4 b5
  decide

/-- The call outcome is ok exactly when nothing is left in the config
after the five pops. -/
lemma metlog_procinfo_isOk (pid : Option Nat) (ownPid : Nat)
    (config : List (String × Bool)) :
    (metlog_procinfo pid ownPid config).1.isOk =
      (metlog_procinfo pid ownPid config).2.isEmpty := by
  simp only [metlog_procinfo]
  split
  case isTrue h => simp [Except.isOk, Except.toBool, h]
  case isFalse h =>
    simp only [Bool.not_eq_true] at h
    simp [Except.isOk, Except.toBool, h]

/-- C4: metlog_procinfo fails (raising SyntaxError, before process_details
spawns any worker: the ok payload is what process_details would be called
with) if and only if the config mapping holds a key outside
net, io, cpu, mem, threads; a config of only recognized keys never
triggers the error. -/
theorem metlog_procinfo_unrecognized_key_fails (pid : Option Nat)
    (ownPid : Nat) (config : List (String × Bool)) :
    (metlog_procinfo pid ownPid config).1.isOk = true ↔
      ∀ kv ∈ config, kv.1 = "net" ∨ kv.1 = "io" ∨ kv.1 = "cpu" ∨
        kv.1 = "mem" ∨ kv.1 = "threads" := by
  rw [metlog_procinfo_isOk, metlog_procinfo_snd, List.isEmpty_iff,
    List.filter_eq_nil_iff]
  refine forall_congr' fun a => imp_congr_right fun ha => ?_
  simp only [Bool.and_eq_true, bne_iff_ne, ne_eq, not_and_or, not_not]
  tauto

/-- Witness for C4: a config with the unrecognized key thread_io fails,
a config with only recognized keys succeeds. -/
theorem metlog_procinfo_unrecognized_key_fails_witness :
    (metlog_procinfo none 1 [("net", true), ("thread_io", true)]).1.isOk =
      false ∧
    (metlog_procinfo none 1 [("net", true), ("io", false)]).1.isOk = true := by
  constructor
  · rw [Bool.eq_false_iff]
    intro hok
    exact absurd
      ((metlog_procinfo_unrecognized_key_fails none 1
        [("net", true), ("thread_io", true)]).mp hok) (by decide)
  · exact (metlog_procinfo_unrecognized_key_fails none 1
      [("net", true), ("io", false)]).mpr (by decide)

/-- C10: metlog_procinfo mutates the caller config in place: all five
recognized keys are popped before the unrecognized-key check, so after
any call (error included) the mapping holds exactly its entries with
unrecognized keys, and no recognized key remains. -/
theorem metlog_procinfo_pops_caller_config (pid : Option Nat) (ownPid : Nat)
    (config : List (String × Bool)) :
    (metlog_procinfo pid ownPid config).2 =
      config.filter (fun kv =>
        kv.1 != "net" && kv.1 != "io" && kv.1 != "cpu" && kv.1 != "mem" &&
          kv.1 != "threads") ∧
    ∀ kv ∈ (metlog_procinfo pid ownPid config).2,
      ¬(kv.1 = "net" ∨ kv.1 = "io" ∨ kv.1 = "cpu" ∨ kv.1 = "mem" ∨
        kv.1 = "threads") := by
  refine ⟨metlog_procinfo_snd pid ownPid config, fun kv hkv => ?_⟩
  rw [metlog_procinfo_snd pid ownPid config] at hkv
  have h2 := (List.mem_filter.mp hkv).2
  simp only [Bool.and_eq_true, bne_iff_ne, ne_eq] at h2
  tauto

/-- Witness for C10: the error call leaves exactly the unrecognized entry
in the caller mapping. -/
theorem metlog_procinfo_pops_caller_config_witness :
    (metlog_procinfo none 1 [("net", true), ("thread_io", true)]).2 =
      [("net", true), ("thread_io", true)].filter (fun kv =>
        kv.1 != "net" && kv.1 != "io" && kv.1 != "cpu" && kv.1 != "mem" &&
          kv.1 != "threads") ∧
    ∀ kv ∈ (metlog_procinfo none 1 [("net", true), ("thread_io", true)]).2,
      ¬(kv.1 = "net" ∨ kv.1 = "io" ∨ kv.1 = "cpu" ∨ kv.1 = "mem" ∨
        kv.1 = "threads") :=
  metlog_procinfo_pops_caller_config none 1 [("net", true), ("thread_io", true)]

/-- Decimal digit characters are never the asterisk. -/
lemma digitChar_lt_ten_ne_star : ∀ k < 10, Nat.digitChar k ≠ '*' := by decide

/-- Every character that Nat.toDigitsCore 10 adds on top of the
accumulator is a digit character of a value below ten. -/
lemma mem_toDigitsCore_ten (f : Nat) : ∀ (n : Nat) (l : List Char) (c : Char),
    c ∈ Nat.toDigitsCore 10 f n l →
    c ∈ l ∨ ∃ k, k < 10 ∧ c = Nat.digitChar k := by
  induction f with
  | zero => intro n l c h; exact Or.inl h
  | succ f ih =>
    intro n l c h
    simp only [Nat.toDigitsCore] at h
    split at h
    · rcases List.mem_cons.mp h with h1 | h1
      · exact Or.inr ⟨n % 10, Nat.mod_lt _ (by decide), h1⟩
      · exact Or.inl h1
    · rcases ih (n / 10) (Nat.digitChar (n % 10) :: l) c h with h1 | h1
      · rcases List.mem_cons.mp h1 with h2 | h2
        · exact Or.inr ⟨n % 10, Nat.mod_lt _ (by decide), h2⟩
        · exact Or.inl h2
      · exact Or.inr h1

/-- The decimal representation of a natural number is never "*". -/
lemma repr_ne_star (p : Nat) : Nat.repr p ≠ "*" := by
  intro hco
  have hdata : Nat.toDigitsCore 10 (p + 1) p [] = ['*'] := by
    have h1 := congrArg String.data hco
    simpa [Nat.repr, Nat.toDigits, List.asString] using h1
  have hmem : ('*' : Char) ∈ Nat.toDigitsCore 10 (p + 1) p [] := by
    rw [hdata]
    exact List.mem_singleton.mpr rfl
  rcases mem_toDigitsCore_ten (p + 1) p [] '*' hmem with h1 | ⟨k, hk, he⟩
  · exact absurd h1 (List.not_mem_nil _)
  · exact digitChar_lt_ten_ne_star k hk he.symm

/-- No "ip:port" string formatted from an actual remote address collides
with the placeholder "*:*". -/
lemma append_repr_ne_starstar (ip : String) (p : Nat) :
    ip ++ ":" ++ Nat.repr p ≠ "*:*" := by
  intro h
  have hd := congrArg String.data h
  rw [String.data_append, String.data_append] at hd
  have hcolon : (":" : String).data = [':'] := rfl
  have hstar : ("*:*" : String).data = ['*', ':', '*'] := rfl
  rw [hcolon, hstar] at hd
  cases hip : ip.data with
  | nil =>
    rw [hip] at hd
    simp only [List.nil_append, List.cons_append] at hd
    injection hd with h1 _
    exact absurd h1 (by decide)
  | cons a t =>
    cases t with
    | nil =>
      rw [hip] at hd
      simp only [List.cons_append, List.nil_append] at hd
      injection hd with h1 h2
      injection h2 with h3 h4
      apply repr_ne_star p
      apply String.ext
      rw [h4]
    | cons b t2 =>
      rw [hip] at hd
      simp only [List.cons_append, List.nil_append, List.append_assoc] at hd
      injection hd with h1 h2
      injection h2 with h3 h4
      cases t2 with
      | nil =>
        simp only [List.nil_append] at h4
        injection h4 with h5 _
        exact absurd h5 (by decide)
      | cons cc t3 =>
        simp only [List.cons_append] at h4
        injection h4 with h5 h6
        exact absurd h6 (by simp)

/-- C6: every connection record classifies stream sockets as TCP,
datagram sockets as UDP and all others as UNIX, copies the status,
formats the local endpoint as "ip:port", and uses "*:*" as the remote
endpoint exactly when the connection has no remote address; the spec
scenario (a single listening stream socket at 127.0.0.1:50007 with net
requested) yields the one-element net sequence of the spec. -/
theorem get_connections_classification :
    (∀ c : Connection, ∃ t l r,
       connRecord c = JVal.obj
         [("type", JVal.str t), ("status", JVal.str c.status),
          ("local", JVal.str l), ("remote", JVal.str r)] ∧
       (c.type = SOCK_STREAM → t = "TCP") ∧
       (c.type = SOCK_DGRAM → t = "UDP") ∧
       (c.type ≠ SOCK_STREAM → c.type ≠ SOCK_DGRAM → t = "UNIX") ∧
       l = c.local_address.1 ++ ":" ++ Nat.repr c.local_address.2 ∧
       (r = "*:*" ↔ c.remote_address = none) ∧
       (∀ a, c.remote_address = some a →
          r = a.1 ++ ":" ++ Nat.repr a.2)) ∧
    worker_run plat1 1 2 sampleData true false false false false =
      Except.ok [("net", JVal.arr [JVal.obj
        [("type", JVal.str "TCP"), ("status", JVal.str "LISTEN"),
         ("local", JVal.str "127.0.0.1:50007"),
         ("remote", JVal.str "*:*")]])] := by
  constructor
  · intro c
    refine ⟨_, _, _, rfl, ?_, ?_, ?_, rfl, ?_, ?_⟩
    · intro h
      simp [h, SOCK_STREAM]
    · intro h
      simp [h, SOCK_STREAM, SOCK_DGRAM]
    · intro h1 h2
      simp [SOCK_STREAM, SOCK_DGRAM, beq_iff_eq] at h1 h2 ⊢
      first
      | rfl
      | simp [h1, h2]
    · cases hr : c.remote_address with
      | none => simp
      | some a =>
        simp only []
        constructor
        · intro hcontra
          exact absurd hcontra (append_repr_ne_starstar a.1 a.2)
        · intro hcontra
          exact Option.noConfusion hcontra
    · intro a ha
      rw [ha]
  · rfl

/-- Witness for C6 at the scenario connection. -/
theorem get_connections_classification_witness :
    ∃ t l r,
      connRecord listenConn = JVal.obj
        [("type", JVal.str t), ("status", JVal.str listenConn.status),
         ("local", JVal.str l), ("remote", JVal.str r)] ∧
      (listenConn.type = SOCK_STREAM → t = "TCP") ∧
      (listenConn.type = SOCK_DGRAM → t = "UDP") ∧
      (listenConn.type ≠ SOCK_STREAM → listenConn.type ≠ SOCK_DGRAM →
        t = "UNIX") ∧
      l = listenConn.local_address.1 ++ ":" ++
        Nat.repr listenConn.local_address.2 ∧
      (r = "*:*" ↔ listenConn.remote_address = none) ∧
      (∀ a, listenConn.remote_address = some a →
        r = a.1 ++ ":" ++ Nat.repr a.2) :=
  get_connections_classification.1 listenConn

/-- C2 counterexample: with io counters supported but the permission gate
failed (darwin, non-root), requesting only mem does not produce a result
with mem omitted: the whole collection fails, so io is not the single
fail-hard category and there is no per-category fail-soft policy. -/
theorem worker_mem_gate_also_fails_hard_cex :
    collectKeys (worker_run plat2 1 2 sampleData false false false true false) =
      none ∧
    collectKeys (worker_run plat2 1 2 sampleData false false false true false) ≠
      some [] := by
  decide

/-- C2 amended: whenever io is explicitly requested and
supports_iocounters is false, the worker terminates abnormally (no result
mapping at all, in particular no empty or absent io key) — though this
fail-hard behavior is not unique to io. -/
theorem worker_io_unsupported_fails_hard (plat : Platform)
    (workerPid pid : Nat) (d : ProcData) (net cpu mem threads : Bool)
    (hs : supports_iocounters plat = false) :
    collectKeys (worker_run plat workerPid pid d net true cpu mem threads) =
      none := by
  unfold worker_run
  cases hp : check_osx_perm plat <;>
    cases net <;>
    by_cases hw : workerPid = pid <;>
      simp_all [LazyPSUtil.init, LazyPSUtil.write_json, initialClassMethods,
        delClassAttr, attrLookup, LazyPSUtil.get_connections,
        LazyPSUtil.get_io_counters, LazyPSUtil.process, collectKeys,
        Bind.bind, Except.bind, Pure.pure, Except.pure, beq_iff_eq]

/-- Witness for C2 amended on the non-posix platform. -/
theorem worker_io_unsupported_fails_hard_witness :
    collectKeys (worker_run plat0 3 4 sampleData false true false false false) =
      none :=
  worker_io_unsupported_fails_hard plat0 3 4 sampleData false false false false
    rfl

/-- C1 counterexample: on a platform where io counters are unsupported
(gate fails) but everything else is available, requesting net and io does
not return a mapping with keys exactly the requested-and-supported
set (which would be some with net only): the whole collection fails and
no mapping is returned, so the failed-gate category is not silently
omitted. -/
theorem worker_gate_failure_not_omitted_cex :
    collectKeys (worker_run plat0 1 2 sampleData true true false false false) =
      none ∧
    collectKeys (worker_run plat0 1 2 sampleData true true false false false) ≠
      some ["net"] := by
  decide

/-- C1 amended: when every requested category passes its capability gate,
the collection result holds exactly the requested category keys (never a
superset); when any requested category fails its gate, the whole
invocation fails instead of omitting that category. -/
theorem worker_keys_exactly_requested :
    (∀ (plat : Platform) (workerPid pid : Nat) (d : ProcData)
       (net io cpu mem threads : Bool),
       workerPid ≠ pid →
       (io = true → supports_iocounters plat = true) →
       (cpu = true → check_osx_perm plat = true) →
       (mem = true → check_osx_perm plat = true) →
       (threads = true → check_osx_perm plat = true) →
       collectKeys (worker_run plat workerPid pid d net io cpu mem threads) =
         some (requestedKeys net io cpu mem threads)) ∧
    (∀ (plat : Platform) (workerPid pid : Nat) (d : ProcData)
       (net io cpu mem threads : Bool),
       ((io = true ∧ supports_iocounters plat = false) ∨
        ((cpu = true ∨ mem = true ∨ threads = true) ∧
          check_osx_perm plat = false)) →
       collectKeys (worker_run plat workerPid pid d net io cpu mem threads) =
         none) := by
  constructor
  · intro plat workerPid pid d net io cpu mem threads hw hio hcpu hmem hthreads
    cases hs : supports_iocounters plat <;> cases hp : check_osx_perm plat <;>
      cases io <;> cases cpu <;> cases mem <;> cases threads <;> cases net <;>
        simp_all [worker_run, LazyPSUtil.init, LazyPSUtil.write_json,
          initialClassMethods, delClassAttr, attrLookup,
          LazyPSUtil.get_connections, LazyPSUtil.get_io_counters,
          LazyPSUtil.get_cpu_info, LazyPSUtil.get_memory_info,
          LazyPSUtil.get_thread_cpuinfo, LazyPSUtil.process, collectKeys,
          requestedKeys, Bind.bind, Except.bind, Pure.pure, Except.pure,
          beq_iff_eq]
  · intro plat workerPid pid d net io cpu mem threads h
    rcases h with ⟨hio, hs⟩ | ⟨hor, hp⟩
    · subst hio
      cases hp : check_osx_perm plat <;> cases net <;>
        by_cases hw : workerPid = pid <;>
          simp_all [worker_run, LazyPSUtil.init, LazyPSUtil.write_json,
            initialClassMethods, delClassAttr, attrLookup,
            LazyPSUtil.get_connections, LazyPSUtil.get_io_counters,
            LazyPSUtil.process, collectKeys, Bind.bind, Except.bind,
            Pure.pure, Except.pure, beq_iff_eq]
    · cases hs : supports_iocounters plat <;> cases net <;> cases io <;>
        cases cpu <;> cases mem <;> cases threads <;>
          by_cases hw : workerPid = pid <;>
            simp_all [worker_run, LazyPSUtil.init, LazyPSUtil.write_json,
              initialClassMethods, delClassAttr, attrLookup,
              LazyPSUtil.get_connections, LazyPSUtil.get_io_counters,
              LazyPSUtil.get_cpu_info, LazyPSUtil.get_memory_info,
              LazyPSUtil.get_thread_cpuinfo, LazyPSUtil.process, collectKeys,
              Bind.bind, Except.bind, Pure.pure, Except.pure, beq_iff_eq]

/-- Witness for C1 amended: all five categories requested where all gates
pass, and a failed io gate aborting a net-and-io request. -/
theorem worker_keys_exactly_requested_witness :
    collectKeys (worker_run plat1 1 2 sampleData true true true true true) =
      some (requestedKeys true true true true true) ∧
    collectKeys (worker_run plat0 1 2 sampleData true true false false false) =
      none :=
  ⟨worker_keys_exactly_requested.1 plat1 1 2 sampleData true true true true
      true (by decide) (fun _ => rfl) (fun _ => rfl) (fun _ => rfl)
      (fun _ => rfl),
   worker_keys_exactly_requested.2 plat0 1 2 sampleData true true false false
      false (Or.inl ⟨rfl, rfl⟩)⟩

end Pslog
